import Mathlib

/-!
Shallow embedding of the dropship checkout server (server.js and ship.js):
monetary normalizer, shipping-fee resolver, order ledger (SQLite `orders`
table with `payment_id TEXT UNIQUE`), checkout handlers for the Paystack,
OPay and Stripe gateways, the Paystack poll-and-verify reconciliation and
the Stripe webhook handler.  JavaScript numbers are modelled as rationals
(ℚ) where fractional amounts occur and as integers where the code holds
integer minor units; `Math.round` is modelled precisely as
`⌊x + 1/2⌋` (round half toward positive infinity, as in JS).
-/

/-- JS `Math.round`: round half toward positive infinity. -/
def jsRound (q : ℚ) : ℤ := ⌊q + 1/2⌋

/-- `toCents` from server.js: if the value is an integer greater than 1000
it is assumed to already be in cents and returned unchanged, otherwise it
is treated as a major-unit amount and multiplied by 100 with JS rounding.
(The `Number.isFinite` guard of the source cannot fail on ℚ.) -/
def toCents (value : ℚ) : ℤ :=
  if value.den = 1 ∧ value.num > 1000 then value.num
  else jsRound (value * 100)

/-- `fromCents` from server.js: divide by 100 (a falsy/absent input is
treated as 0, which coincides with the integer 0 here). -/
def fromCents (cents : ℤ) : ℚ := (cents : ℚ) / 100

/-- `SHIPPING_FEES` object from server.js (own keys, without the
`default` entry which is modelled separately). -/
def SHIPPING_FEES : List (String × Nat) :=
  [("Lagos", 2000), ("Abuja", 2500), ("Rivers", 3000), ("Kano", 2800),
   ("Kaduna", 2500), ("Oyo", 2200), ("Ogun", 2000), ("Enugu", 2700),
   ("Anambra", 2700)]

/-- The `default` entry of `SHIPPING_FEES`. -/
def SHIPPING_FEES_default : Nat := 3500

/-- JS `v || d` on a possibly-absent number: an absent or falsy (zero)
value falls through to the default. -/
def jsOrNat (v : Option Nat) (d : Nat) : Nat :=
  match v with
  | some n => if n = 0 then d else n
  | none => d

/-- `getShippingFee(state)` from server.js:
`SHIPPING_FEES[state] || SHIPPING_FEES.default`; an absent state looks up
nothing and yields the default. -/
def getShippingFee (state : Option String) : Nat :=
  jsOrNat (state.bind (fun s => SHIPPING_FEES.lookup s)) SHIPPING_FEES_default

/-- A customer payload (all fields optional in the request body; the code
reads them with `customer?.field || ""` and `customer?.state`). -/
structure Customer where
  name : Option String
  email : Option String
  phone : Option String
  address : Option String
  state : Option String
deriving DecidableEq

/-- The argument object of `createDraftOrder` in server.js.  The cart is
persisted as its JSON serialization, modelled as an opaque string. -/
structure DraftInput where
  paymentId : String
  cartItemsJson : String
  customer : Option Customer
  usdTotalCents : Option Int
  koboTotal : Option Int
  supplierTotal : Option Int
  profitCents : Option Int
deriving DecidableEq

/-- One row of the `orders` table of server.js (`payment_id TEXT UNIQUE`).
Timestamps are abstract ticks (`created_at` from CURRENT_TIMESTAMP at
insert, `processed_at` NULL until a terminal transition). -/
structure OrderRow where
  local_order_id : String
  payment_id : String
  status : String
  customer_name : String
  customer_email : String
  customer_phone : String
  customer_address : String
  items_json : String
  total_cents_usd : Int
  total_kobo_ngn : Int
  supplier_share_cents : Int
  profit_cents : Int
  supplier_response : Option String
  created_at : Nat
  processed_at : Option Nat
deriving DecidableEq

/-- Whether some row of the ledger carries the given `payment_id`. -/
def hasPaymentId (db : List OrderRow) (pid : String) : Bool :=
  db.any (fun r => r.payment_id == pid)

/-- Number of ledger rows carrying the given `payment_id`. -/
def countPid (db : List OrderRow) (pid : String) : Nat :=
  db.countP (fun r => r.payment_id == pid)

/-- `createDraftOrder` from server.js: `INSERT OR IGNORE INTO orders ...`
under the `UNIQUE` constraint on `payment_id` — if a row with this
payment id already exists the insert is silently ignored, otherwise a new
row is appended with status "pending", the `?? 0` defaults on the numeric
fields and the `|| ""` defaults on the customer fields
(`local_order_id` is "o" + Date.now()). -/
def createDraftOrder (db : List OrderRow) (i : DraftInput) (now : Nat) :
    List OrderRow :=
  if hasPaymentId db i.paymentId then db
  else
    db ++ [{ local_order_id := "o" ++ toString now,
             payment_id := i.paymentId,
             status := "pending",
             customer_name := (i.customer.bind Customer.name).getD "",
             customer_email := (i.customer.bind Customer.email).getD "",
             customer_phone := (i.customer.bind Customer.phone).getD "",
             customer_address := (i.customer.bind Customer.address).getD "",
             items_json := i.cartItemsJson,
             total_cents_usd := i.usdTotalCents.getD 0,
             total_kobo_ngn := i.koboTotal.getD 0,
             supplier_share_cents := i.supplierTotal.getD 0,
             profit_cents := i.profitCents.getD 0,
             supplier_response := none,
             created_at := now,
             processed_at := none }]

/-- The `UPDATE orders SET status = ?, processed_at = CURRENT_TIMESTAMP
WHERE payment_id = ?` statement of `verifyPaystackPayment` with
parameter "paid": every row matching the reference (zero or one, by
uniqueness) gets status "paid" and a fresh `processed_at` stamp. -/
def markPaid (db : List OrderRow) (reference : String) (now : Nat) :
    List OrderRow :=
  db.map (fun r =>
    if r.payment_id == reference
    then { r with status := "paid", processed_at := some now }
    else r)

/-- Responses of the `/api/paystack-callback` route. -/
inductive VerifyResponse where
  /-- 400, "Reference required". -/
  | badRequest
  /-- 200, payment verified. -/
  | okPaid
  /-- 400, "Payment failed". -/
  | failed400
deriving DecidableEq

/-- `verifyPaystackPayment` from server.js, after the gateway verify call
returned `gatewayStatus` for the reference: a missing reference is a 400;
on gateway status "success" the order is marked paid and 200 is returned;
otherwise the ledger is untouched and a 400 is returned. -/
def verifyPaystackPayment (db : List OrderRow) (reference : Option String)
    (gatewayStatus : String) (now : Nat) : List OrderRow × VerifyResponse :=
  match reference with
  | none => (db, VerifyResponse.badRequest)
  | some ref =>
    if gatewayStatus = "success" then (markPaid db ref now, VerifyResponse.okPaid)
    else (db, VerifyResponse.failed400)

/-- The ledger row found under a payment id (`WHERE payment_id = ?`). -/
def findOrder (db : List OrderRow) (pid : String) : Option OrderRow :=
  db.find? (fun r => r.payment_id == pid)

/-- The status of the order stored under a payment id, if any. -/
def statusOf (db : List OrderRow) (pid : String) : Option String :=
  (findOrder db pid).map OrderRow.status

/-- The `processed_at` column of the order stored under a payment id. -/
def processedAtOf (db : List OrderRow) (pid : String) : Option (Option Nat) :=
  (findOrder db pid).map OrderRow.processed_at

/-- A parsed Stripe webhook event (`event.type` and the payment-intent id
`event.data.object.id`), from ship.js. -/
structure StripeEvent where
  type : String
  objectId : String
deriving DecidableEq

/-- A record of the `orders.json` store written by `saveOrderLocally` in
ship.js (only the fields relevant to webhook reconciliation). -/
structure SavedOrder where
  local_order_id : String
  payment_intent : String
deriving DecidableEq

/-- `handleStripeEvent` from ship.js: the switch on `event.type` only
logs in every case — `payment_intent.succeeded`,
`payment_intent.payment_failed` and the default branch all leave the
stored orders untouched. -/
def handleStripeEvent (event : StripeEvent) (orders : List SavedOrder) :
    List SavedOrder :=
  if event.type = "payment_intent.succeeded" then orders
  else if event.type = "payment_intent.payment_failed" then orders
  else orders

/-- Responses of the `/webhook` route of ship.js. -/
inductive WebhookResponse where
  /-- `res.json(\x7b received: true \x7d)`. -/
  | ok (received : Bool)
  /-- 400, "Webhook Error: ..." on signature verification failure. -/
  | sigError
deriving DecidableEq

/-- The `/webhook` route of ship.js: without a configured secret the body
is parsed naively and handled; with a secret, a valid signature leads to
handling and an invalid one to a 400; every handled event is acknowledged
with `received: true`. -/
def webhookRoute (secretConfigured sigValid : Bool) (event : StripeEvent)
    (orders : List SavedOrder) : List SavedOrder × WebhookResponse :=
  if secretConfigured = false then
    (handleStripeEvent event orders, WebhookResponse.ok true)
  else if sigValid = true then
    (handleStripeEvent event orders, WebhookResponse.ok true)
  else (orders, WebhookResponse.sigError)

/-- The operations that touch the `orders` ledger: draft creation,
poll-and-verify, and (for completeness of the reconciliation alphabet)
a Stripe webhook delivery, which mutates no ledger row in the code. -/
inductive LedgerEvent where
  | createDraft (input : DraftInput) (now : Nat)
  | verify (reference : Option String) (gatewayStatus : String) (now : Nat)
  | stripeWebhook (event : StripeEvent)
deriving DecidableEq

/-- Effect of one operation on the orders ledger. -/
def step (db : List OrderRow) : LedgerEvent → List OrderRow
  | LedgerEvent.createDraft i n => createDraftOrder db i n
  | LedgerEvent.verify ref st n => (verifyPaystackPayment db ref st n).1
  | LedgerEvent.stripeWebhook _ => db

/-- Run a sequence of ledger operations. -/
def run (db : List OrderRow) (es : List LedgerEvent) : List OrderRow :=
  List.foldl step db es

/-- Every row's status is one the code can write: "pending" (draft
insert) or "paid" (verify UPDATE); no code path writes "failed". -/
def goodStatus (db : List OrderRow) : Prop :=
  ∀ r ∈ db, r.status = "pending" ∨ r.status = "paid"

/-- A cart line item as read by `createPaystackOrderHandler`
(`Number(it.price) || 0`, `parseInt(it.quantity || 1, 10)`). -/
structure PaystackItem where
  price : Option ℚ
  quantity : Option Int
deriving DecidableEq

/-- The NGN total loop of `createPaystackOrderHandler`:
`ngnTotal += price * qty` over the cart (prices assumed already NGN). -/
def paystackNgnTotal (items : List PaystackItem) : ℚ :=
  List.foldl (fun acc it => acc + (it.price.getD 0) * ((it.quantity.getD 1) : ℚ))
    0 items

/-- What `createPaystackOrderHandler` sends to the gateway and writes into
the draft: the pre-shipping NGN total, the shipping fee added in NGN major
units, the charged amount `Math.round(ngnTotal * 100)` in kobo, and the
hard-coded draft fields `supplierTotal: 0`, `profitCents: 0`. -/
structure PaystackProceed where
  preShippingNgn : ℚ
  shippingFee : Nat
  totalKobo : ℤ
  draftSupplierTotal : Int
  draftProfitCents : Int
deriving DecidableEq

/-- `createPaystackOrderHandler` from server.js up to the gateway call: an
empty cart is a 400; otherwise the NGN total plus the shipping fee for
`customer?.state` is charged in kobo and the draft records no supplier
share and no profit. -/
def createPaystackOrderHandler (items : List PaystackItem)
    (customer : Option Customer) : Except String PaystackProceed :=
  if items.isEmpty then Except.error "cartItems required"
  else
    let ngnTotal := paystackNgnTotal items
    let fee := getShippingFee (customer.bind Customer.state)
    Except.ok ⟨ngnTotal, fee, jsRound ((ngnTotal + fee) * 100), 0, 0⟩

/-- A cart line item as read by `createOpayOrderHandler`
(`toCents(it.price)`, `toCents(it.supplierCost || 0)`,
`parseInt(it.quantity || 1, 10)`). -/
structure OpayItem where
  price : ℚ
  supplierCost : Option ℚ
  quantity : Option Int
deriving DecidableEq

/-- The totals loop of `createOpayOrderHandler`: USD cents of
price times quantity and of supplier cost times quantity. -/
def opayTotals (items : List OpayItem) : ℤ × ℤ :=
  List.foldl (fun acc it =>
    (acc.1 + toCents it.price * (it.quantity.getD 1),
     acc.2 + toCents (it.supplierCost.getD 0) * (it.quantity.getD 1)))
    (0, 0) items

/-- What `createOpayOrderHandler` sends to the gateway and writes into the
draft: USD totals, the profit `usdTotal - usdSupplierTotal` (no sign
check), and the kobo amount converted at the live rate. -/
structure OpayProceed where
  usdTotalCents : ℤ
  supplierTotalCents : ℤ
  profitCents : ℤ
  totalKobo : ℤ
deriving DecidableEq

/-- `createOpayOrderHandler` from server.js up to the gateway call: an
empty cart is a 400; every other cart proceeds to the signed invoice
request and the draft write, with `profitCents = usdTotal -
usdSupplierTotal` computed without any negativity check and no shipping
fee added. -/
def createOpayOrderHandler (items : List OpayItem) (rate : ℚ) :
    Except String OpayProceed :=
  if items.isEmpty then Except.error "cartItems required"
  else
    let t := opayTotals items
    Except.ok ⟨t.1, t.2, t.1 - t.2, jsRound (fromCents t.1 * rate * 100)⟩

/-- A cart line item as read by the `/api/create-payment-intent` handler
of ship.js (`parseInt(it.price, 10)`, `parseInt(it.supplierCost || 0)`,
`it.quantity || it.qty || 1`). -/
structure StripeItem where
  price : Int
  supplierCost : Option Int
  quantity : Option Int
deriving DecidableEq

/-- The totals loop of the payment-intent handler: cents of price times
quantity and of supplier cost times quantity. -/
def stripeTotals (items : List StripeItem) : Int × Int :=
  List.foldl (fun acc it =>
    (acc.1 + it.price * (it.quantity.getD 1),
     acc.2 + (it.supplierCost.getD 0) * (it.quantity.getD 1)))
    (0, 0) items

/-- The PaymentIntent parameters built when the supplier account is
configured: amount, `application_fee_amount = profit`, supplier share. -/
structure StripeIntentParams where
  amount : Int
  application_fee_amount : Int
  supplier_share : Int
deriving DecidableEq

/-- The `/api/create-payment-intent` handler of ship.js up to the gateway
call: empty cart is a 400; a negative profit is rejected with a 400
("prevent negative app fee") before `stripe.paymentIntents.create`. -/
def createPaymentIntentHandler (items : List StripeItem) :
    Except String StripeIntentParams :=
  if items.isEmpty then Except.error "No cart items provided"
  else
    let t := stripeTotals items
    if t.1 - t.2 < 0 then
      Except.error "Supplier cost exceeds customer price for items"
    else Except.ok ⟨t.1, t.1 - t.2, t.2⟩

/-- Claim C10: at the unit-inference boundary, `toCents 1000` is classified
as a major-unit amount and becomes 100000, while `toCents 1001` is
returned unchanged as already-minor. -/
theorem toCents_boundary : toCents 1000 = 100000 ∧ toCents 1001 = 1001 := by
  constructor <;> norm_num [toCents, jsRound]

/-- Claim C6: `getShippingFee` maps Lagos to 2000 and an unknown region to
the default 3500, and it is total: every region input (including an absent
one) yields a positive fee. -/
theorem getShippingFee_total :
    getShippingFee (some "Lagos") = 2000 ∧
    getShippingFee (some "Unknown-Region") = 3500 ∧
    getShippingFee none = 3500 ∧
    ∀ state : Option String, 0 < getShippingFee state := by
  refine ⟨by decide, by decide, by decide, ?_⟩
  intro state
  cases state with
  | none => decide
  | some s =>
    unfold getShippingFee jsOrNat
    cases h : (Option.some s).bind (fun s => SHIPPING_FEES.lookup s) with
    | none => decide
    | some v =>
      by_cases hv : v = 0
      · simp [hv, SHIPPING_FEES_default]
      · simp [hv]
        omega

/-- Claim C5, counterexample: the round trip `toCents (fromCents x)` is not
the identity on every multiple of 100 above 1000: at x = 100100 the major
value 1001 is itself an integer above 1000, so `toCents` returns it
unchanged. -/
theorem roundtrip_fails_at_100100 :
    toCents (fromCents 100100) = 1001 ∧ (1001 : ℤ) ≠ 100100 := by
  constructor
  · norm_num [toCents, fromCents]
  · decide

/-- Claim C5, amended: the round trip is the identity on multiples of 100
strictly between 1000 and 100000 inclusive (so that the major value is at
most 1000 and escapes the already-minor branch). -/
theorem roundtrip_on_bounded_multiples (x : ℤ) (hdvd : (100 : ℤ) ∣ x)
    (hlo : 1000 < x) (hhi : x ≤ 100000) :
    toCents (fromCents x) = x := by
  obtain ⟨k, rfl⟩ := hdvd
  have hk : (10 : ℤ) < k := by omega
  have hk2 : k ≤ 1000 := by omega
  have hcast : fromCents (100 * k) = (k : ℚ) := by
    unfold fromCents
    push_cast
    field_simp
  rw [hcast]
  unfold toCents
  have hden : ((k : ℚ)).den = 1 := Rat.den_intCast k
  have hnum : ((k : ℚ)).num = k := Rat.num_intCast k
  rw [if_neg]
  · unfold jsRound
    have : ((k : ℚ)) * 100 = ((100 * k : ℤ) : ℚ) := by push_cast; ring
    rw [this, Int.floor_int_add]
    norm_num
  · intro hcond
    rw [hnum] at hcond
    omega

/-- Claim C5, witness instantiation of the amended round-trip theorem at
x = 2000. -/
theorem roundtrip_on_bounded_multiples_witness :
    (100 : ℤ) ∣ 2000 ∧ (1000 : ℤ) < 2000 ∧ (2000 : ℤ) ≤ 100000 ∧
    toCents (fromCents 2000) = 2000 :=
  ⟨by decide, by decide, by decide,
   roundtrip_on_bounded_multiples 2000 (by decide) (by decide) (by decide)⟩

/-- `find?` over an append looks at the left list first. -/
theorem find?_append_left {α : Type} (p : α → Bool) (l₁ l₂ : List α)
    (h : (l₁.find? p).isSome) : (l₁ ++ l₂).find? p = l₁.find? p := by
  induction l₁ with
  | nil => simp [List.find?] at h
  | cons a t ih =>
    by_cases hpa : p a = true
    · simp [List.find?_cons_of_pos _ hpa]
    · have hpa' : ¬ p a = true := hpa
      rw [List.cons_append, List.find?_cons_of_neg _ hpa',
        List.find?_cons_of_neg _ hpa']
      rw [List.find?_cons_of_neg _ hpa'] at h
      exact ih h

/-- `find?` commutes with a map that preserves the predicate. -/
theorem find?_map_of_pres {α : Type} (f : α → α) (p : α → Bool) (l : List α)
    (hf : ∀ a, p (f a) = p a) : (l.map f).find? p = (l.find? p).map f := by
  induction l with
  | nil => rfl
  | cons a t ih =>
    by_cases hpa : p a = true
    · have : p (f a) = true := by rw [hf]; exact hpa
      rw [List.map_cons, List.find?_cons_of_pos _ this,
        List.find?_cons_of_pos _ hpa]
      rfl
    · have hfa : ¬ p (f a) = true := by rw [hf]; exact hpa
      rw [List.map_cons, List.find?_cons_of_neg _ hfa,
        List.find?_cons_of_neg _ hpa]
      exact ih

/-- Mapping a function that fixes every element of a list is the identity. -/
theorem map_id_of_fixed {α : Type} (f : α → α) (l : List α)
    (h : ∀ a ∈ l, f a = a) : l.map f = l := by
  induction l with
  | nil => rfl
  | cons a t ih =>
    rw [List.map_cons, h a (List.mem_cons_self a t),
      ih (fun x hx => h x (List.mem_cons_of_mem a hx))]

/-- Marking an unknown reference paid leaves the ledger untouched (the
UPDATE matches zero rows). -/
theorem markPaid_of_absent (db : List OrderRow) (r : String) (now : Nat)
    (h : hasPaymentId db r = false) : markPaid db r now = db := by
  unfold markPaid
  apply map_id_of_fixed
  intro a ha
  have hno : ¬ (a.payment_id == r) = true := by
    intro hcontra
    have : hasPaymentId db r = true := by
      unfold hasPaymentId
      exact List.any_eq_true.mpr ⟨a, ha, hcontra⟩
    rw [h] at this
    exact Bool.false_ne_true this
  simp [hno]

/-- After `createDraftOrder db i n`, a row under `i.paymentId` exists. -/
theorem hasPaymentId_createDraftOrder (db : List OrderRow) (i : DraftInput)
    (n : Nat) : hasPaymentId (createDraftOrder db i n) i.paymentId = true := by
  unfold createDraftOrder
  by_cases h : hasPaymentId db i.paymentId = true
  · simp [h]
  · have h' : hasPaymentId db i.paymentId = false := by
      cases hb : hasPaymentId db i.paymentId
      · rfl
      · exact absurd hb h
    simp only [h', if_neg Bool.false_ne_true]
    unfold hasPaymentId at h' ⊢
    rw [List.any_append, h']
    simp

/-- `createDraftOrder` is the identity when the payment id is already
present (INSERT OR IGNORE under the UNIQUE constraint). -/
theorem createDraftOrder_of_has (db : List OrderRow) (i : DraftInput)
    (n : Nat) (h : hasPaymentId db i.paymentId = true) :
    createDraftOrder db i n = db := by
  unfold createDraftOrder
  simp [h]

/-- Claim C1: drafting twice under the same payment reference is
idempotent — the second call returns the ledger of the first call
unchanged (no throw, no second row, no altered field), and starting from a
ledger without the reference, exactly one row under it exists
afterwards. -/
theorem createDraftOrder_idempotent (db : List OrderRow) (i i' : DraftInput)
    (n n' : Nat) (hpid : i'.paymentId = i.paymentId) :
    createDraftOrder (createDraftOrder db i n) i' n' = createDraftOrder db i n ∧
    (countPid db i.paymentId = 0 →
      countPid (createDraftOrder (createDraftOrder db i n) i' n') i.paymentId = 1) := by
  have h1 : hasPaymentId (createDraftOrder db i n) i'.paymentId = true := by
    rw [hpid]; exact hasPaymentId_createDraftOrder db i n
  have heq := createDraftOrder_of_has (createDraftOrder db i n) i' n' h1
  refine ⟨heq, fun h0 => ?_⟩
  rw [heq]
  have hno : hasPaymentId db i.paymentId = false := by
    unfold countPid at h0
    unfold hasPaymentId
    rw [List.any_eq_false]
    intro x hx
    have := List.countP_eq_zero.mp h0 x hx
    simpa using this
  unfold createDraftOrder
  simp only [hno, if_neg Bool.false_ne_true]
  unfold countPid
  rw [List.countP_append]
  unfold countPid at h0
  rw [h0]
  simp

/-- Claim C1, witness: concretely drafting twice under reference "ref1"
starting from the empty ledger. -/
theorem createDraftOrder_idempotent_witness :
    createDraftOrder
        (createDraftOrder []
          (⟨"ref1", "[]", none, some 0, some 4500, some 0, some 0⟩ : DraftInput) 0)
        (⟨"ref1", "[1]", none, some 9, some 9, some 9, some 9⟩ : DraftInput) 1
      = createDraftOrder []
          (⟨"ref1", "[]", none, some 0, some 4500, some 0, some 0⟩ : DraftInput) 0 ∧
    countPid
      (createDraftOrder
        (createDraftOrder []
          (⟨"ref1", "[]", none, some 0, some 4500, some 0, some 0⟩ : DraftInput) 0)
        (⟨"ref1", "[1]", none, some 9, some 9, some 9, some 9⟩ : DraftInput) 1)
      "ref1" = 1 := by
  have H := createDraftOrder_idempotent []
    (⟨"ref1", "[]", none, some 0, some 4500, some 0, some 0⟩ : DraftInput)
    (⟨"ref1", "[1]", none, some 9, some 9, some 9, some 9⟩ : DraftInput)
    0 1 rfl
  exact ⟨H.1, H.2 (by decide)⟩

/-- Claim C9: a successful gateway verification for a reference with no
local row still answers success, and the ledger is left entirely
unchanged (the UPDATE silently affects zero rows). -/
theorem verify_unknown_reference (db : List OrderRow) (r : String)
    (now : Nat) (h : hasPaymentId db r = false) :
    verifyPaystackPayment db (some r) "success" now = (db, VerifyResponse.okPaid) := by
  simp only [verifyPaystackPayment, if_pos, markPaid_of_absent db r now h]

/-- Claim C9, witness: verifying reference "opay_ref_7" against the empty
ledger. -/
theorem verify_unknown_reference_witness :
    hasPaymentId [] "opay_ref_7" = false ∧
    verifyPaystackPayment [] (some "opay_ref_7") "success" 5
      = ([], VerifyResponse.okPaid) :=
  ⟨by decide, verify_unknown_reference [] "opay_ref_7" 5 (by decide)⟩

/-- `find?` on a list produced by `find?` is some. -/
theorem find?_isSome_of_any {α : Type} (p : α → Bool) (l : List α)
    (h : l.any p = true) : (l.find? p).isSome := by
  induction l with
  | nil => simp at h
  | cons a t ih =>
    by_cases hpa : p a = true
    · simp [List.find?_cons_of_pos _ hpa]
    · rw [List.find?_cons_of_neg _ hpa]
      apply ih
      have hpa' : p a = false := by
        cases hb : p a
        · rfl
        · exact absurd hb hpa
      rw [List.any_cons, hpa', Bool.false_or] at h
      exact h

/-- `createDraftOrder` either ignores the insert (payment id present) or
appends exactly one fresh "pending" row under the payment id. -/
theorem createDraftOrder_cases (db : List OrderRow) (i : DraftInput)
    (n : Nat) :
    (hasPaymentId db i.paymentId = true ∧ createDraftOrder db i n = db) ∨
    (hasPaymentId db i.paymentId = false ∧ ∃ row : OrderRow,
      createDraftOrder db i n = db ++ [row] ∧ row.status = "pending" ∧
      row.payment_id = i.paymentId ∧ row.processed_at = none) := by
  by_cases h : hasPaymentId db i.paymentId = true
  · exact Or.inl ⟨h, createDraftOrder_of_has db i n h⟩
  · have h' : hasPaymentId db i.paymentId = false := by
      cases hb : hasPaymentId db i.paymentId
      · rfl
      · exact absurd hb h
    refine Or.inr ⟨h', ?_⟩
    unfold createDraftOrder
    rw [if_neg h]
    exact ⟨_, rfl, rfl, rfl, rfl⟩

/-- A stored status survives appending rows on the right. -/
theorem statusOf_append_of_some (db l : List OrderRow) (pid s : String)
    (h : statusOf db pid = some s) : statusOf (db ++ l) pid = some s := by
  unfold statusOf findOrder at h ⊢
  cases hf : List.find? (fun r => r.payment_id == pid) db with
  | none => rw [hf] at h; exact absurd h (by simp)
  | some row =>
    rw [find?_append_left _ _ _ (by rw [hf]; rfl)]
    rw [hf] at h ⊢
    exact h

/-- The UPDATE of `markPaid` rewrites exactly the row found under a
payment id, leaving its `payment_id` untouched. -/
theorem findOrder_markPaid (db : List OrderRow) (ref : String) (now : Nat)
    (pid : String) :
    findOrder (markPaid db ref now) pid =
      (findOrder db pid).map (fun r =>
        if r.payment_id == ref
        then { r with status := "paid", processed_at := some now }
        else r) := by
  unfold findOrder markPaid
  apply find?_map_of_pres
  intro a
  by_cases h : (a.payment_id == ref) = true <;> simp [h]

/-- A row already "paid" stays "paid" under any `markPaid`. -/
theorem statusOf_markPaid_paid (db : List OrderRow) (pid ref : String)
    (now : Nat) (h : statusOf db pid = some "paid") :
    statusOf (markPaid db ref now) pid = some "paid" := by
  unfold statusOf at h ⊢
  rw [findOrder_markPaid]
  cases hf : findOrder db pid with
  | none => rw [hf] at h; exact absurd h (by simp)
  | some row =>
    rw [hf] at h
    have hs : row.status = "paid" := by simpa using h
    simp only [Option.map_some']
    refine congrArg some ?_
    split
    · rfl
    · exact hs

/-- A row already "paid" stays "paid" under any single ledger operation. -/
theorem statusOf_step_paid (db : List OrderRow) (pid : String)
    (e : LedgerEvent) (h : statusOf db pid = some "paid") :
    statusOf (step db e) pid = some "paid" := by
  cases e with
  | createDraft i n =>
    show statusOf (createDraftOrder db i n) pid = some "paid"
    rcases createDraftOrder_cases db i n with ⟨_, heq⟩ | ⟨_, row, heq, _, _, _⟩
    · rw [heq]; exact h
    · rw [heq]; exact statusOf_append_of_some db [row] pid "paid" h
  | verify ref st n =>
    show statusOf (verifyPaystackPayment db ref st n).1 pid = some "paid"
    cases ref with
    | none => exact h
    | some r =>
      by_cases hs : st = "success"
      · simp only [verifyPaystackPayment, if_pos hs]
        exact statusOf_markPaid_paid db pid r n h
      · simp only [verifyPaystackPayment, if_neg hs]
        exact h
  | stripeWebhook e => exact h

/-- A row already "paid" stays "paid" under any sequence of operations. -/
theorem statusOf_run_paid (es : List LedgerEvent) (db : List OrderRow)
    (pid : String) (h : statusOf db pid = some "paid") :
    statusOf (run db es) pid = some "paid" := by
  induction es generalizing db with
  | nil => exact h
  | cons e t ih => exact ih (step db e) (statusOf_step_paid db pid e h)

/-- One operation preserves the invariant that all statuses are "pending"
or "paid". -/
theorem goodStatus_step (db : List OrderRow) (e : LedgerEvent)
    (h : goodStatus db) : goodStatus (step db e) := by
  cases e with
  | createDraft i n =>
    show goodStatus (createDraftOrder db i n)
    rcases createDraftOrder_cases db i n with ⟨_, heq⟩ | ⟨_, row, heq, hst, _, _⟩
    · rw [heq]; exact h
    · rw [heq]
      intro r hr
      rcases List.mem_append.mp hr with hmem | hmem
      · exact h r hmem
      · have : r = row := by simpa using hmem
        rw [this, hst]
        exact Or.inl rfl
  | verify ref st n =>
    show goodStatus (verifyPaystackPayment db ref st n).1
    cases ref with
    | none => exact h
    | some r =>
      by_cases hs : st = "success"
      · simp only [verifyPaystackPayment, if_pos hs]
        intro rr hrr
        rcases List.mem_map.mp hrr with ⟨a, ha, rfl⟩
        by_cases hb : (a.payment_id == r) = true
        · simp [hb]
        · simp only [hb]
          simp only [Bool.false_eq_true, if_false]
          exact h a ha
      · simp only [verifyPaystackPayment, if_neg hs]
        exact h
  | stripeWebhook e => exact h

/-- The status invariant holds along every run. -/
theorem goodStatus_run (es : List LedgerEvent) (db : List OrderRow)
    (h : goodStatus db) : goodStatus (run db es) := by
  induction es generalizing db with
  | nil => exact h
  | cons e t ih => exact ih (step db e) (goodStatus_step db e h)

/-- Claim C2: every draft starts at "pending", and once an order observed
along any run from the empty ledger holds a terminal status ("paid" or
"failed"), no further sequence of operations (draft creation,
poll-and-verify, webhook) changes that status. -/
theorem order_status_monotone_terminal :
    (∀ (i : DraftInput) (n : Nat),
      statusOf (createDraftOrder [] i n) i.paymentId = some "pending") ∧
    ∀ (es es' : List LedgerEvent) (pid s : String),
      (s = "paid" ∨ s = "failed") →
      statusOf (run [] es) pid = some s →
      statusOf (run (run [] es) es') pid = some s := by
  constructor
  · intro i n
    unfold createDraftOrder hasPaymentId statusOf findOrder
    simp [List.find?]
  · intro es es' pid s hterm h
    have hgood : goodStatus (run [] es) :=
      goodStatus_run es [] (by intro r hr; cases hr)
    have hs : s = "paid" := by
      rcases hterm with hp | hf
      · exact hp
      · exfalso
        unfold statusOf at h
        cases hfo : findOrder (run [] es) pid with
        | none => rw [hfo] at h; exact absurd h (by simp)
        | some row =>
          rw [hfo] at h
          have hmem : row ∈ run [] es :=
            List.mem_of_find?_eq_some (by simpa [findOrder] using hfo)
          have hrs : row.status = s := by simpa using h
          rw [hf] at hrs
          rcases hgood row hmem with h1 | h1 <;> rw [h1] at hrs <;>
            exact absurd hrs (by decide)
    subst hs
    exact statusOf_run_paid es' (run [] es) pid h

/-- Claim C2, witness: a concrete trace — draft "ref1", verify success,
then a webhook delivery and a repeated successful verify leave the status
at "paid". -/
theorem order_status_monotone_terminal_witness :
    statusOf
        (createDraftOrder []
          (⟨"ref1", "[]", none, some 0, some 4500, some 0, some 0⟩ : DraftInput) 0)
        "ref1" = some "pending" ∧
    statusOf
        (run [] [LedgerEvent.createDraft
                  (⟨"ref1", "[]", none, some 0, some 4500, some 0, some 0⟩ : DraftInput) 0,
                 LedgerEvent.verify (some "ref1") "success" 1])
        "ref1" = some "paid" ∧
    statusOf
        (run (run [] [LedgerEvent.createDraft
                  (⟨"ref1", "[]", none, some 0, some 4500, some 0, some 0⟩ : DraftInput) 0,
                 LedgerEvent.verify (some "ref1") "success" 1])
             [LedgerEvent.stripeWebhook ⟨"payment_intent.succeeded", "pi_1"⟩,
              LedgerEvent.verify (some "ref1") "success" 2])
        "ref1" = some "paid" := by
  have H := order_status_monotone_terminal
  exact ⟨H.1 (⟨"ref1", "[]", none, some 0, some 4500, some 0, some 0⟩ : DraftInput) 0,
    by decide,
    H.2 [LedgerEvent.createDraft
          (⟨"ref1", "[]", none, some 0, some 4500, some 0, some 0⟩ : DraftInput) 0,
         LedgerEvent.verify (some "ref1") "success" 1]
        [LedgerEvent.stripeWebhook ⟨"payment_intent.succeeded", "pi_1"⟩,
         LedgerEvent.verify (some "ref1") "success" 2]
        "ref1" "paid" (Or.inl rfl) (by decide)⟩

/-- Claim C8, counterexample: a repeated successful poll-and-verify for
the same reference overwrites `processed_at` — after verifying at tick 1
the stamp is 1, and a second successful verify at tick 2 re-stamps it
to 2, so the timestamp is not assigned exactly once. -/
theorem processedAt_overwritten_on_repeat_verify :
    processedAtOf
        (run [] [LedgerEvent.createDraft
                  (⟨"ref1", "[]", none, some 0, some 4500, some 0, some 0⟩ : DraftInput) 0,
                 LedgerEvent.verify (some "ref1") "success" 1])
        "ref1" = some (some 1) ∧
    processedAtOf
        (run [] [LedgerEvent.createDraft
                  (⟨"ref1", "[]", none, some 0, some 4500, some 0, some 0⟩ : DraftInput) 0,
                 LedgerEvent.verify (some "ref1") "success" 1,
                 LedgerEvent.verify (some "ref1") "success" 2])
        "ref1" = some (some 2) ∧
    (some (some 2) : Option (Option Nat)) ≠ some (some 1) := by
  refine ⟨by decide, by decide, by decide⟩

/-- Claim C8, amended: `processed_at` is first assigned at the
pending → paid transition, but every successful poll-and-verify for a
present reference (re-)stamps it with the current tick — the UPDATE of
`verifyPaystackPayment` carries no status guard, so a repeated successful
verify overwrites the stamp. -/
theorem processedAt_restamped_on_verify (db : List OrderRow) (r : String)
    (now : Nat) (h : hasPaymentId db r = true) :
    processedAtOf ((verifyPaystackPayment db (some r) "success" now).1) r
      = some (some now) := by
  have hred : (verifyPaystackPayment db (some r) "success" now).1
      = markPaid db r now := by
    simp [verifyPaystackPayment]
  rw [hred]
  unfold processedAtOf
  rw [findOrder_markPaid]
  have hsome : (List.find? (fun rr => rr.payment_id == r) db).isSome :=
    find?_isSome_of_any _ db h
  obtain ⟨row, hrow⟩ := Option.isSome_iff_exists.mp hsome
  have hb := List.find?_some hrow
  unfold findOrder
  rw [hrow]
  simp only [Option.map_some']
  refine congrArg some ?_
  split
  · rfl
  · exact absurd hb (by assumption)

/-- Claim C8, witness (of the amended theorem): drafting "ref1" and then
verifying at tick 7 leaves `processed_at = 7`. -/
theorem processedAt_restamped_on_verify_witness :
    hasPaymentId
      (createDraftOrder []
        (⟨"ref1", "[]", none, some 0, some 4500, some 0, some 0⟩ : DraftInput) 0)
      "ref1" = true ∧
    processedAtOf
      ((verifyPaystackPayment
          (createDraftOrder []
            (⟨"ref1", "[]", none, some 0, some 4500, some 0, some 0⟩ : DraftInput) 0)
          (some "ref1") "success" 7).1)
      "ref1" = some (some 7) :=
  ⟨by decide,
   processedAt_restamped_on_verify
     (createDraftOrder []
       (⟨"ref1", "[]", none, some 0, some 4500, some 0, some 0⟩ : DraftInput) 0)
     "ref1" 7 (by decide)⟩

/-- Claim C3, counterexample: the OPay checkout does not reject a cart
whose supplier share (2000 cents) exceeds the total (1000 cents): it
proceeds to the gateway call and the draft write with a negative profit
of -1000 cents recorded. -/
theorem opay_negative_profit_not_rejected :
    createOpayOrderHandler [⟨10, some 20, some 1⟩] 1500
      = Except.ok ⟨1000, 2000, -1000, 1500000⟩ ∧
    (2000 : ℤ) > 1000 ∧ (-1000 : ℤ) < 0 := by
  refine ⟨?_, by decide, by decide⟩
  simp [createOpayOrderHandler, opayTotals, toCents, jsRound, fromCents]
  norm_num

/-- Claim C3, amended: only the Stripe payment-intent checkout rejects a
negative-profit cart with a 400 validation error before the gateway call;
the OPay checkout performs no such check — every nonempty cart (whatever
the sign of its profit) reaches the gateway call and the draft write,
with `profitCents = usdTotal - usdSupplierTotal` recorded as computed. -/
theorem profit_check_stripe_only :
    (∀ items : List StripeItem, items ≠ [] →
      (stripeTotals items).1 - (stripeTotals items).2 < 0 →
      createPaymentIntentHandler items
        = Except.error "Supplier cost exceeds customer price for items") ∧
    (∀ (items : List OpayItem) (rate : ℚ), items ≠ [] →
      createOpayOrderHandler items rate
        = Except.ok ⟨(opayTotals items).1, (opayTotals items).2,
            (opayTotals items).1 - (opayTotals items).2,
            jsRound (fromCents (opayTotals items).1 * rate * 100)⟩) := by
  constructor
  · intro items hne hneg
    unfold createPaymentIntentHandler
    rw [if_neg (by simpa [List.isEmpty_iff] using hne), if_pos hneg]
  · intro items rate hne
    unfold createOpayOrderHandler
    rw [if_neg (by simpa [List.isEmpty_iff] using hne)]

/-- Claim C3, witness: the Stripe handler rejects a concrete
negative-profit cart, while the OPay handler accepts one. -/
theorem profit_check_stripe_only_witness :
    ([(⟨1000, some 2000, some 1⟩ : StripeItem)] ≠ []) ∧
    (stripeTotals [⟨1000, some 2000, some 1⟩]).1
      - (stripeTotals [⟨1000, some 2000, some 1⟩]).2 < 0 ∧
    createPaymentIntentHandler [⟨1000, some 2000, some 1⟩]
      = Except.error "Supplier cost exceeds customer price for items" ∧
    ([(⟨10, some 20, some 1⟩ : OpayItem)] ≠ []) ∧
    createOpayOrderHandler [⟨10, some 20, some 1⟩] 1500
      = Except.ok ⟨1000, 2000, -1000, 1500000⟩ := by
  have H := profit_check_stripe_only
  refine ⟨by simp, by decide,
    H.1 [⟨1000, some 2000, some 1⟩] (by simp) (by decide),
    by simp, ?_⟩
  refine (H.2 [⟨10, some 20, some 1⟩] 1500 (by simp)).trans ?_
  simp [opayTotals, toCents, jsRound, fromCents]
  norm_num

/-- Claim C4, counterexample: on the cart
[(price 10.00, supplierCost 6.00, quantity 2)] with region "Abuja" the
Paystack checkout charges 252000 kobo (the ₦2500 shipping fee is added in
naira before the ×100 conversion), not 4500 minor units, and its draft
records supplier share 0 and profit 0, not 1200 and 800. -/
theorem paystack_abuja_scenario_counterexample :
    createPaystackOrderHandler [⟨some 10, some 2⟩]
        (some ⟨some "Ada", some "ada@example.com", none, none, some "Abuja"⟩)
      = Except.ok ⟨20, 2500, 252000, 0, 0⟩ ∧
    ((252000 : ℤ) ≠ 4500) ∧ ((0 : Int) ≠ 1200) ∧ ((0 : Int) ≠ 800) := by
  have hfee : getShippingFee (some "Abuja") = 2500 := by decide
  refine ⟨?_, by decide, by decide, by decide⟩
  simp [createPaystackOrderHandler, paystackNgnTotal, Option.bind, hfee, jsRound]
  norm_num

/-- Claim C4, amended: for that cart and region the Paystack checkout
computes a pre-shipping total of ₦20 (2000 kobo), adds the ₦2500 Abuja
fee in major units and charges 252000 kobo, with supplier share and
profit recorded as 0; the figures 2000 / 1200 / 800 (cents) arise from
the OPay totals loop, which adds no shipping fee (at rate 1500 it
charges 3000000 kobo). -/
theorem paystack_abuja_scenario_actual :
    createPaystackOrderHandler [⟨some 10, some 2⟩]
        (some ⟨some "Ada", some "ada@example.com", none, none, some "Abuja"⟩)
      = Except.ok ⟨20, 2500, 252000, 0, 0⟩ ∧
    jsRound ((20 : ℚ) * 100) = 2000 ∧
    opayTotals [⟨10, some 6, some 2⟩] = (2000, 1200) ∧
    ((2000 : ℤ) - 1200 = 800) ∧
    createOpayOrderHandler [⟨10, some 6, some 2⟩] 1500
      = Except.ok ⟨2000, 1200, 800, 3000000⟩ := by
  have hfee : getShippingFee (some "Abuja") = 2500 := by decide
  refine ⟨?_, ?_, ?_, by decide, ?_⟩
  · simp [createPaystackOrderHandler, paystackNgnTotal, Option.bind, hfee, jsRound]
    norm_num
  · norm_num [jsRound]
  · simp [opayTotals, toCents, jsRound]
    norm_num
  · simp [createOpayOrderHandler, opayTotals, toCents, jsRound, fromCents]
    norm_num

/-- Claim C7: an event of unrecognized type, or a
`payment_intent.succeeded` event whose payment intent matches no stored
order, is acknowledged by the webhook route with `received: true` and
changes no order state (whenever it passes the signature stage, i.e. no
secret is configured or the signature is valid). -/
theorem webhook_acks_unknown (secretConfigured sigValid : Bool)
    (event : StripeEvent) (orders : List SavedOrder)
    (hsig : secretConfigured = false ∨ sigValid = true)
    (_hcase : (event.type ≠ "payment_intent.succeeded" ∧
              event.type ≠ "payment_intent.payment_failed") ∨
             (event.type = "payment_intent.succeeded" ∧
              ∀ o ∈ orders, o.payment_intent ≠ event.objectId)) :
    webhookRoute secretConfigured sigValid event orders
      = (orders, WebhookResponse.ok true) := by
  have hid : handleStripeEvent event orders = orders := by
    unfold handleStripeEvent
    by_cases h1 : event.type = "payment_intent.succeeded"
    · rw [if_pos h1]
    · rw [if_neg h1]
      by_cases h2 : event.type = "payment_intent.payment_failed"
      · rw [if_pos h2]
      · rw [if_neg h2]
  unfold webhookRoute
  rcases hsig with hs | hs
  · rw [if_pos hs, hid]
  · by_cases hc : secretConfigured = false
    · rw [if_pos hc, hid]
    · rw [if_neg hc, if_pos hs, hid]

/-- Claim C7, witness: a concrete unrecognized event type against an
empty order store on the unsigned path. -/
theorem webhook_acks_unknown_witness :
    ((false = false) ∨ (true = true)) ∧
    ((StripeEvent.mk "charge.refunded" "pi_9").type
       ≠ "payment_intent.succeeded" ∧
     (StripeEvent.mk "charge.refunded" "pi_9").type
       ≠ "payment_intent.payment_failed") ∧
    webhookRoute false true ⟨"charge.refunded", "pi_9"⟩ []
      = ([], WebhookResponse.ok true) :=
  ⟨Or.inl rfl, ⟨by decide, by decide⟩,
   webhook_acks_unknown false true ⟨"charge.refunded", "pi_9"⟩ []
     (Or.inl rfl) (Or.inl ⟨by decide, by decide⟩)⟩
